import Mathlib

/-!
Shallow embedding of the development-feasibility engine
(supabase/functions/promoteur-v1/index.ts) and verification of its
specification claims.

Modelling conventions:
* JSON numbers are modelled as `ℚ`; `null`/`undefined` as `Option.none`.
  All numbers reachable in this engine are finite, so the
  `Number.isFinite` guard of `safeNumber` never fires on a modelled value.
* The external lookups (Supabase tables) are passed in as explicit
  parameters: the DVF transaction table as `Option (List DvfRawRow)`
  (`none` models a query error), the cadastre row and the promoter
  profile row likewise as `Option` values.
* `Math.round` is modelled exactly as round-half-up: `⌊x + 1/2⌋`.
-/

namespace Mimmoza

/-- Source `safeNumber` (index.ts lines 122-126): `null`/`undefined` map to
the fallback, a finite number to itself.  Non-finite inputs do not occur in
the rational model. -/
def safeNumber (value : Option ℚ) (fallback : Option ℚ) : Option ℚ :=
  match value with
  | Option.none => fallback
  | some n => some n

/-- Source `round` (index.ts lines 128-131):
`Math.round(value * 10 ** decimals) / 10 ** decimals`, with `null`
propagated.  `Math.round x = ⌊x + 1/2⌋` (round half towards +∞). -/
def round (value : Option ℚ) (decimals : ℕ) : Option ℚ :=
  match value with
  | Option.none => Option.none
  | some v => some (((⌊v * (10 : ℚ) ^ decimals + 1 / 2⌋ : ℤ) : ℚ) / (10 : ℚ) ^ decimals)

/-! ## PLU ruleset (interface `PluRuleset`, lines 77-96) -/

structure Implantation where
  retrait_rue_m : Option ℚ
  retrait_fond_parcelle_m : Option ℚ
  retrait_lateraux_m : Option ℚ
deriving DecidableEq

structure EmpriseSol where
  max_ratio : Option ℚ
  max_m2 : Option ℚ
deriving DecidableEq

structure Hauteur where
  hauteur_max_m : Option ℚ
  hauteur_min_m : Option ℚ
deriving DecidableEq

structure PluRuleset where
  implantation : Option Implantation
  emprise_sol : Option EmpriseSol
  hauteur : Option Hauteur
deriving DecidableEq

/-- Interface `ProjetInput` (lines 60-63). -/
structure ProjetInput where
  destination_principale : String
  scenario : Option String
deriving DecidableEq

/-! ## Étude architecturale output (object returned at lines 399-423) -/

structure Retraits where
  rue_m : Option ℚ
  fond_m : Option ℚ
  lateraux_m : Option ℚ
deriving DecidableEq

structure HypothesesArchi where
  hauteur_niveau_m : ℚ
  taux_efficiences_plans : ℚ
  scenario_projet : String
deriving DecidableEq

structure RepartitionLine where
  type : String
  m2 : ℚ
deriving DecidableEq

structure Repartition where
  rdc : RepartitionLine
  etages : RepartitionLine
deriving DecidableEq

structure EtudeArchi where
  surface_terrain_m2 : Option ℚ
  emprise_autorisee_m2 : Option ℚ
  retraits : Retraits
  hauteur_max_m : ℚ
  hypotheses : HypothesesArchi
  nb_niveaux_possibles : ℤ
  surface_niveau_typique_m2 : Option ℚ
  sdp_totale_potentielle_m2 : Option ℚ
  repartition_fonctions : Repartition
deriving DecidableEq

/-- Source `computeEtudeArchi` (lines 354-424).  `projet.scenario ||
"logement_seul"` treats the empty string as falsy, hence the explicit
check. -/
def computeEtudeArchi (surfaceTerrainM2 : ℚ) (ruleset : Option PluRuleset)
    (projet : ProjetInput) : EtudeArchi :=
  let empriseRatio :=
    (safeNumber ((ruleset.bind (·.emprise_sol)).bind (·.max_ratio)) Option.none).getD (6 / 10)
  let empriseMaxM2FromRatio := surfaceTerrainM2 * empriseRatio
  let empriseMaxM2Fixed :=
    safeNumber ((ruleset.bind (·.emprise_sol)).bind (·.max_m2)) Option.none
  let empriseAutoriseeM2 :=
    match empriseMaxM2Fixed with
    | some f => min f empriseMaxM2FromRatio
    | Option.none => empriseMaxM2FromRatio
  let hauteurMaxM :=
    (safeNumber ((ruleset.bind (·.hauteur)).bind (·.hauteur_max_m)) Option.none).getD 15
  let hauteurNiveauM : ℚ := 3
  let nbNiveauxPossibles : ℤ := max 1 ⌊hauteurMaxM / hauteurNiveauM⌋
  let tauxEfficiencesPlans : ℚ := 85 / 100
  let surfaceNiveauTypiqueM2 := empriseAutoriseeM2 * tauxEfficiencesPlans
  let sdpTotalePotentielleM2 := surfaceNiveauTypiqueM2 * (nbNiveauxPossibles : ℚ)
  let scenario :=
    match projet.scenario with
    | some s => if s = "" then "logement_seul" else s
    | Option.none => "logement_seul"
  { surface_terrain_m2 := round (some surfaceTerrainM2) 2
    emprise_autorisee_m2 := round (some empriseAutoriseeM2) 2
    retraits :=
      { rue_m := safeNumber ((ruleset.bind (·.implantation)).bind (·.retrait_rue_m)) (some 0)
        fond_m := safeNumber ((ruleset.bind (·.implantation)).bind (·.retrait_fond_parcelle_m))
          Option.none
        lateraux_m := safeNumber ((ruleset.bind (·.implantation)).bind (·.retrait_lateraux_m))
          Option.none }
    hauteur_max_m := hauteurMaxM
    hypotheses :=
      { hauteur_niveau_m := hauteurNiveauM
        taux_efficiences_plans := tauxEfficiencesPlans
        scenario_projet := scenario }
    nb_niveaux_possibles := nbNiveauxPossibles
    surface_niveau_typique_m2 := round (some surfaceNiveauTypiqueM2) 2
    sdp_totale_potentielle_m2 := round (some sdpTotalePotentielleM2) 2
    repartition_fonctions :=
      { rdc := { type := "logement", m2 := sdpTotalePotentielleM2 / (nbNiveauxPossibles : ℚ) }
        etages :=
          { type := "logement"
            m2 := sdpTotalePotentielleM2 - sdpTotalePotentielleM2 / (nbNiveauxPossibles : ℚ) } } }

/-! ## Promoter profile parameters

The TS interface `PromoteurParams` types the three sections as `any`; in
this engine every leaf actually read is numeric, so the sections are
modelled as typed records of optional rationals (the untyped deep-merge of
overrides is modelled separately on `Jv` below, exactly where the claims
are about merging). -/

structure VenteParams where
  prix_vente_m2 : Option ℚ
  taux_vacance : Option ℚ
deriving DecidableEq

structure VentesParams where
  logement : Option VenteParams
  commerce : Option VenteParams
  bureaux : Option VenteParams
deriving DecidableEq

structure ConstructionParams where
  logement_m2 : Option ℚ
  commerce_m2 : Option ℚ
  bureaux_m2 : Option ℚ
deriving DecidableEq

structure CoutsParams where
  construction : Option ConstructionParams
  honoraires_pct : Option ℚ
  frais_etudes_pct : Option ℚ
  frais_commerciaux_pct : Option ℚ
  frais_financiers_pct : Option ℚ
  taxes_pct : Option ℚ
deriving DecidableEq

structure ObjectifParams where
  marge_cible_pct_sur_ca : Option ℚ
deriving DecidableEq

structure PromoteurParams where
  ventes : Option VentesParams
  couts : Option CoutsParams
  objectif : Option ObjectifParams
deriving DecidableEq

/-- The built-in default profile (`defaults`, lines 201-219), in the typed
representation used by the compute functions. -/
def defaultPromoteurParams : PromoteurParams :=
  { ventes := some
      { logement := some { prix_vente_m2 := some 7000, taux_vacance := some 0 }
        commerce := some { prix_vente_m2 := some 8000, taux_vacance := some 0 }
        bureaux := Option.none }
    couts := some
      { construction := some
          { logement_m2 := some 2300, commerce_m2 := some 2200, bureaux_m2 := some 2400 }
        honoraires_pct := some (5 / 100)
        frais_etudes_pct := some (2 / 100)
        frais_commerciaux_pct := some (3 / 100)
        frais_financiers_pct := some (4 / 100)
        taxes_pct := some (3 / 100) }
    objectif := some { marge_cible_pct_sur_ca := some (12 / 100) } }

/-! ## Revenus & coûts hors foncier (lines 430-540) -/

structure VenteLineOut where
  m2 : Option ℚ
  prix_m2 : Option ℚ
  ca : Option ℚ
deriving DecidableEq

structure VentesOut where
  logement : VenteLineOut
  commerce : VenteLineOut
  bureaux : VenteLineOut
  ca_total : Option ℚ
deriving DecidableEq

structure CoutsHorsFoncierOut where
  construction : Option ℚ
  honoraires : Option ℚ
  frais_etudes : Option ℚ
  frais_commerciaux : Option ℚ
  frais_financiers : Option ℚ
  taxes : Option ℚ
  cout_total_hors_foncier : Option ℚ
deriving DecidableEq

structure RevenusCouts where
  sdpTotale : ℚ
  ventes : VentesOut
  couts_hors_foncier : CoutsHorsFoncierOut
  ca_total_brut : ℚ
  cout_total_hors_foncier_brut : ℚ
deriving DecidableEq

/-- Source `computeRevenusEtCoutsHorsFoncier` (lines 430-540).  The `profil`
argument is reduced to its `params` field, the only part the function
reads. -/
def computeRevenusEtCoutsHorsFoncier (etudeArchi : EtudeArchi)
    (params : PromoteurParams) : RevenusCouts :=
  let sdpTotale := (safeNumber etudeArchi.sdp_totale_potentielle_m2 (some 0)).getD 0
  let m2Logement := sdpTotale
  let m2Commerce : ℚ := 0
  let m2Bureaux : ℚ := 0
  let prixLogement :=
    (safeNumber ((params.ventes.bind (·.logement)).bind (·.prix_vente_m2)) (some 7000)).getD 7000
  let prixCommerce :=
    (safeNumber ((params.ventes.bind (·.commerce)).bind (·.prix_vente_m2)) (some 8000)).getD 8000
  let prixBureaux :=
    (safeNumber ((params.ventes.bind (·.bureaux)).bind (·.prix_vente_m2)) (some 7500)).getD 7500
  let caLogement := m2Logement * prixLogement
  let caCommerce := m2Commerce * prixCommerce
  let caBureaux := m2Bureaux * prixBureaux
  let caTotal := caLogement + caCommerce + caBureaux
  let coutConstructionLogement := m2Logement *
    ((safeNumber ((params.couts.bind (·.construction)).bind (·.logement_m2)) (some 2300)).getD 2300)
  let coutConstructionCommerce := m2Commerce *
    ((safeNumber ((params.couts.bind (·.construction)).bind (·.commerce_m2)) (some 2200)).getD 2200)
  let coutConstructionBureaux := m2Bureaux *
    ((safeNumber ((params.couts.bind (·.construction)).bind (·.bureaux_m2)) (some 2400)).getD 2400)
  let coutConstructionTotal :=
    coutConstructionLogement + coutConstructionCommerce + coutConstructionBureaux
  let honorairesPct :=
    (safeNumber (params.couts.bind (·.honoraires_pct)) (some (5 / 100))).getD (5 / 100)
  let fraisEtudesPct :=
    (safeNumber (params.couts.bind (·.frais_etudes_pct)) (some (2 / 100))).getD (2 / 100)
  let fraisCommerciauxPct :=
    (safeNumber (params.couts.bind (·.frais_commerciaux_pct)) (some (3 / 100))).getD (3 / 100)
  let fraisFinanciersPct :=
    (safeNumber (params.couts.bind (·.frais_financiers_pct)) (some (4 / 100))).getD (4 / 100)
  let taxesPct :=
    (safeNumber (params.couts.bind (·.taxes_pct)) (some (3 / 100))).getD (3 / 100)
  let honoraires := coutConstructionTotal * honorairesPct
  let fraisEtudes := coutConstructionTotal * fraisEtudesPct
  let fraisCommerciaux := caTotal * fraisCommerciauxPct
  let fraisFinanciers := caTotal * fraisFinanciersPct
  let taxes := caTotal * taxesPct
  let coutHorsFoncierTotal := coutConstructionTotal + honoraires + fraisEtudes +
    fraisCommerciaux + fraisFinanciers + taxes
  { sdpTotale := sdpTotale
    ventes :=
      { logement :=
          { m2 := round (some m2Logement) 2
            prix_m2 := round (some prixLogement) 0
            ca := round (some caLogement) 0 }
        commerce :=
          { m2 := round (some m2Commerce) 2
            prix_m2 := round (some prixCommerce) 0
            ca := round (some caCommerce) 0 }
        bureaux :=
          { m2 := round (some m2Bureaux) 2
            prix_m2 := round (some prixBureaux) 0
            ca := round (some caBureaux) 0 }
        ca_total := round (some caTotal) 0 }
    couts_hors_foncier :=
      { construction := round (some coutConstructionTotal) 0
        honoraires := round (some honoraires) 0
        frais_etudes := round (some fraisEtudes) 0
        frais_commerciaux := round (some fraisCommerciaux) 0
        frais_financiers := round (some fraisFinanciers) 0
        taxes := round (some taxes) 0
        cout_total_hors_foncier := round (some coutHorsFoncierTotal) 0 }
    ca_total_brut := caTotal
    cout_total_hors_foncier_brut := coutHorsFoncierTotal }

/-! ## Foncier + marge (lines 546-639) -/

/-- Source type `FoncierMode` (line 70): the four string values.  The
string-level validation at lines 564-566 (unknown strings coerced to
"none") is the identity on this typed model. -/
inductive FoncierMode where
  | saisi
  | residuel
  | none
  | dvf
deriving DecidableEq

/-- Interface `FoncierInput` (lines 72-75). -/
structure FoncierInput where
  mode : Option FoncierMode
  valeur_terrain_saisi : Option ℚ
deriving DecidableEq

structure MargeOut where
  montant : Option ℚ
  taux_sur_ca : Option ℚ
  marge_cible_pct_sur_ca : Option ℚ
  appreciation : String
deriving DecidableEq

structure ParM2Out where
  residuel : Option ℚ
  saisi : Option ℚ
deriving DecidableEq

structure FoncierDetailOut where
  mode : FoncierMode
  valeur_terrain_saisi : Option ℚ
  valeur_terrain_residuelle : Option ℚ
  delta_vs_residuel : Option ℚ
  delta_vs_residuel_pct : Option ℚ
  par_m2_sdp : ParM2Out
  par_m2_terrain : ParM2Out
deriving DecidableEq

structure FoncierEtMarge where
  cout_foncier_effectif : Option ℚ
  cout_total_effectif : Option ℚ
  valeur_terrain_residuelle : Option ℚ
  marge : MargeOut
  foncier_detail : FoncierDetailOut
deriving DecidableEq

/-- The effective land cost of lines 573-576: the declared value when the
mode is `saisi` and the value is truthy and positive, else 0.  (The JS
truthiness test `valeurTerrainSaisi && valeurTerrainSaisi > 0` amounts to
the value being present and positive.) -/
def coutFoncierEffectifOf (foncier : Option FoncierInput) : ℚ :=
  match (foncier.bind (·.mode)).getD FoncierMode.none,
      safeNumber (foncier.bind (·.valeur_terrain_saisi)) Option.none with
  | FoncierMode.saisi, some v => if 0 < v then v else 0
  | _, _ => 0

/-- Source `computeFoncierEtMarge` (lines 546-639). -/
def computeFoncierEtMarge (caTotal coutHorsFoncierTotal sdpTotale surfaceTerrainM2 : ℚ)
    (params : PromoteurParams) (foncier : Option FoncierInput) : FoncierEtMarge :=
  let margeCible :=
    (safeNumber (params.objectif.bind (·.marge_cible_pct_sur_ca)) (some (12 / 100))).getD (12 / 100)
  let valeurTerrainResiduelle := caTotal * (1 - margeCible) - coutHorsFoncierTotal
  let mode := (foncier.bind (·.mode)).getD FoncierMode.none
  let valeurTerrainSaisi := safeNumber (foncier.bind (·.valeur_terrain_saisi)) Option.none
  let coutFoncierEffectif := coutFoncierEffectifOf foncier
  let coutTotalEffectif := coutHorsFoncierTotal + coutFoncierEffectif
  let margeMontant := caTotal - coutTotalEffectif
  let margeTaux := if 0 < caTotal then margeMontant / caTotal else 0
  let appreciation :=
    if margeCible + 5 / 100 ≤ margeTaux then "très confortable"
    else if margeCible ≤ margeTaux then "confortable"
    else if margeCible - 3 / 100 ≤ margeTaux then "tendue"
    else "faible"
  let sdp := if 0 < sdpTotale then sdpTotale else 1
  let terrainM2 := if 0 < surfaceTerrainM2 then surfaceTerrainM2 else 1
  let foncierResiduelParM2Sdp := valeurTerrainResiduelle / sdp
  let foncierResiduelParM2Terrain := valeurTerrainResiduelle / terrainM2
  let foncierSaisiParM2Sdp := coutFoncierEffectif / sdp
  let foncierSaisiParM2Terrain := coutFoncierEffectif / terrainM2
  let deltaVsResiduel := coutFoncierEffectif - valeurTerrainResiduelle
  let deltaVsResiduelPct :=
    if valeurTerrainResiduelle ≠ 0 then some (deltaVsResiduel / valeurTerrainResiduelle)
    else Option.none
  { cout_foncier_effectif := round (some coutFoncierEffectif) 0
    cout_total_effectif := round (some coutTotalEffectif) 0
    valeur_terrain_residuelle := round (some valeurTerrainResiduelle) 0
    marge :=
      { montant := round (some margeMontant) 0
        taux_sur_ca := round (some (margeTaux * 100)) 1
        marge_cible_pct_sur_ca := round (some (margeCible * 100)) 1
        appreciation := appreciation }
    foncier_detail :=
      { mode := mode
        valeur_terrain_saisi := round valeurTerrainSaisi 0
        valeur_terrain_residuelle := round (some valeurTerrainResiduelle) 0
        delta_vs_residuel := round (some deltaVsResiduel) 0
        delta_vs_residuel_pct :=
          match deltaVsResiduelPct with
          | some p => round (some (p * 100)) 1
          | Option.none => Option.none
        par_m2_sdp :=
          { residuel := round (some foncierResiduelParM2Sdp) 0
            saisi :=
              if 0 < coutFoncierEffectif then round (some foncierSaisiParM2Sdp) 0
              else Option.none }
        par_m2_terrain :=
          { residuel := round (some foncierResiduelParM2Terrain) 0
            saisi :=
              if 0 < coutFoncierEffectif then round (some foncierSaisiParM2Terrain) 0
              else Option.none } } }

/-! ## Estimation foncière via DVF (lines 290-348)

The Supabase query of lines 300-312 is modelled by filtering an explicit
table of rows; `none` for the table models a query error (the
`error || !data` branch, as well as the `catch` branch whose only throw
site is that awaited query). -/

/-- One row of the DVF transaction table, with the columns the query
selects. -/
structure DvfRawRow where
  code_commune : String
  nature_mutation : String
  type_local : Option String
  surface_reelle_bati : Option ℚ
  valeur_fonciere : Option ℚ
  surface_terrain : Option ℚ
deriving DecidableEq

/-- String prefix test over the character lists (the semantics of both
`String.startsWith` and the SQL `LIKE ++ percent` pattern of line 305). -/
def strHasPrefix (pre s : String) : Bool :=
  List.isPrefixOf pre.toList s.toList

/-- First `n` characters of a string (`String.slice`/`take` semantics). -/
def strTake (s : String) (n : ℕ) : String :=
  String.mk (s.toList.take n)

/-- Department prefix (lines 295-298). -/
def depPrefixOf (communeInsee : String) : String :=
  if strHasPrefix "97" communeInsee || strHasPrefix "98" communeInsee then strTake communeInsee 3
  else strTake communeInsee 2

/-- The server-side filters of the query (lines 305-311): commune code
prefix, pure land sale (nature "Vente", no local type, zero built surface),
terrain surface in (0, 5000], declared price > 0. -/
def dvfQueryFilter (depPrefix : String) (row : DvfRawRow) : Bool :=
  strHasPrefix depPrefix row.code_commune &&
  row.nature_mutation == "Vente" &&
  row.type_local == Option.none &&
  row.surface_reelle_bati == some 0 &&
  (match row.surface_terrain with
   | some s => decide (0 < s) && decide (s ≤ 5000)
   | Option.none => false) &&
  (match row.valeur_fonciere with
   | some v => decide (0 < v)
   | Option.none => false)

/-- Rows the query returns: filter then `.limit(1000)` (line 312). -/
def dvfQueryRows (communeInsee : String) (table : List DvfRawRow) : List DvfRawRow :=
  (table.filter (dvfQueryFilter (depPrefixOf communeInsee))).take 1000

/-- Per-record €/m² ratios (lines 318-327): `v / s` for records with a
truthy price and a positive terrain surface, kept only inside the sanity
band [50, 20000]. -/
def dvfRatios (communeInsee : String) (table : List DvfRawRow) : List ℚ :=
  (dvfQueryRows communeInsee table).filterMap (fun row =>
    match safeNumber row.valeur_fonciere Option.none, safeNumber row.surface_terrain Option.none with
    | some v, some s =>
      if v ≠ 0 ∧ 0 < s then
        let ratio := v / s
        if 50 ≤ ratio ∧ ratio ≤ 20000 then some ratio else Option.none
      else Option.none
    | _, _ => Option.none)

/-- The median computation of lines 336-339: ascending sort, central value
for an odd count, mean of the two central values for an even count. -/
def dvfMedian (ratios : List ℚ) : ℚ :=
  let sorted := ratios.insertionSort (· ≤ ·)
  let mid := ratios.length / 2
  if ratios.length % 2 = 1 then sorted.getD mid 0
  else (sorted.getD (mid - 1) 0 + sorted.getD mid 0) / 2

/-- The `meta` object of `estimateFoncierFromDvfByCommune`. -/
structure DvfMeta where
  reason : String
  depPrefix : Option String
  count : Option ℕ
  median : Option ℚ
  samples : Option ℕ
deriving DecidableEq

/-- Source `estimateFoncierFromDvfByCommune` (lines 290-348): returns the
estimated land value (`none` when unresolved) together with its meta. -/
def estimateFoncierFromDvfByCommune (communeInsee : String) (surfaceTerrainM2 : ℚ)
    (table : Option (List DvfRawRow)) : Option ℚ × DvfMeta :=
  let dp := depPrefixOf communeInsee
  match table with
  | Option.none =>
    (Option.none,
      { reason := "dvf_error", depPrefix := some dp, count := Option.none,
        median := Option.none, samples := Option.none })
  | some rows =>
    let ratios := dvfRatios communeInsee rows
    if ratios.length < 30 then
      (Option.none,
        { reason := "dvf_not_enough_samples", depPrefix := Option.none,
          count := some ratios.length, median := Option.none, samples := Option.none })
    else
      let median := dvfMedian ratios
      (some (median * surfaceTerrainM2),
        { reason := "ok", depPrefix := Option.none, count := Option.none,
          median := some median, samples := some ratios.length })

/-! ## Surface depuis le cadastre (lines 261-284) -/

/-- The candidate surface columns read from a `cadastre_parcelles` row
(lines 274-281). -/
structure CadastreRow where
  surface_terrain_m2 : Option ℚ
  surface_m2 : Option ℚ
  surface : Option ℚ
  superficie : Option ℚ
  contenance : Option ℚ
  props_contenance : Option ℚ
deriving DecidableEq

/-- Source `fetchSurfaceFromCadastre` (lines 261-284): first candidate that
is truthy and positive, else `null`.  `row = none` models `error || !data`;
an absent or empty `parcel_id` short-circuits to `null`. -/
def fetchSurfaceFromCadastre (parcelId : Option String) (row : Option CadastreRow) : Option ℚ :=
  match parcelId with
  | Option.none => Option.none
  | some pid =>
    if pid = "" then Option.none
    else
      match row with
      | Option.none => Option.none
      | some d =>
        let candidates := [safeNumber d.surface_terrain_m2 Option.none,
          safeNumber d.surface_m2 Option.none, safeNumber d.surface Option.none,
          safeNumber d.superficie Option.none, safeNumber d.contenance Option.none,
          safeNumber d.props_contenance Option.none]
        (candidates.find? (fun x =>
          match x with
          | some v => decide (0 < v)
          | Option.none => false)).join

/-- Step 1 of the handler (lines 687-693): resolve the terrain surface from
the request, falling back to the cadastre when the request gives none and a
(truthy) parcel id exists.  A `none` result is answered by the handler with
the 400 invalid-input response of lines 694-707 and no computation is
attempted; a `some` result is carried into the computation as-is. -/
def resolveSurface (parcelSurfaceInput : Option ℚ) (parcelId : Option String)
    (cadastreRow : Option CadastreRow) : Option ℚ :=
  let s := safeNumber parcelSurfaceInput Option.none
  match s with
  | some v => some v
  | Option.none =>
    match parcelId with
    | some pid => if pid = "" then Option.none else fetchSurfaceFromCadastre parcelId cadastreRow
    | Option.none => Option.none

/-! ## Handler foncier resolution (serve, lines 760-834) -/

/-- The `dvfInfo` object assembled by the handler.  The two French
`human_message` texts of lines 788-789 and 819-820 are abbreviated to
apostrophe-free constants; only their presence and distinctness matter. -/
structure DvfInfo where
  source : String
  reason : String
  depPrefix : Option String
  count : Option ℕ
  median : Option ℚ
  samples : Option ℕ
  valeur_terrain_estimee : Option ℚ
  used_for_foncier : Bool
  human_message : Option String
  fallback_mode : Option String
  valeur_terrain_residuelle_utilisee : Option ℚ
deriving DecidableEq

/-- Abbreviation of the message set at lines 788-789. -/
def dvfMsgNoComparables : String :=
  "DVF sans comparables suffisants; la valeur residuelle sera utilisee."

/-- Abbreviation of the message set at lines 819-820. -/
def dvfMsgFallback : String :=
  "DVF sans comparables suffisants; valeur residuelle utilisee (marge cible)."

/-- Steps 6 and 7 of the handler (lines 760-834): resolve the land-value
mode, issuing the DVF query only in mode `dvf`, substituting the estimate
as a `saisi` value on success, and otherwise recomputing with the residual
value (clamped at 0) as `saisi` while annotating `dvfInfo`.  Returns the
final `foncierEtMarge`, the `dvfInfo` (`none` when no query was made), and
whether the DVF query was issued. -/
def resolveFoncier (foncierInput : Option FoncierInput) (communeInsee : String)
    (surfaceTerrain : ℚ) (dvfTable : Option (List DvfRawRow))
    (caTotalBrut coutHorsFoncierBrut sdpTotale : ℚ) (params : PromoteurParams) :
    FoncierEtMarge × Option DvfInfo × Bool :=
  let foncierEffective :=
    foncierInput.getD { mode := some FoncierMode.none, valeur_terrain_saisi := Option.none }
  if foncierEffective.mode = some FoncierMode.dvf then
    match estimateFoncierFromDvfByCommune communeInsee surfaceTerrain dvfTable with
    | (some v, meta) =>
      let fe : FoncierInput := { mode := some FoncierMode.saisi, valeur_terrain_saisi := some v }
      let info : DvfInfo :=
        { source := "dvf_commune", reason := meta.reason, depPrefix := meta.depPrefix,
          count := meta.count, median := meta.median, samples := meta.samples,
          valeur_terrain_estimee := some v, used_for_foncier := true,
          human_message := Option.none, fallback_mode := Option.none,
          valeur_terrain_residuelle_utilisee := Option.none }
      (computeFoncierEtMarge caTotalBrut coutHorsFoncierBrut sdpTotale surfaceTerrain params
        (some fe), some info, true)
    | (Option.none, meta) =>
      -- first pass (line 796) with mode still "dvf", then the automatic
      -- fallback of lines 805-834
      let fm1 := computeFoncierEtMarge caTotalBrut coutHorsFoncierBrut sdpTotale surfaceTerrain
        params (some foncierEffective)
      let valeurResiduelle := fm1.valeur_terrain_residuelle.getD 0
      let fe : FoncierInput :=
        { mode := some FoncierMode.saisi,
          valeur_terrain_saisi := some (if 0 < valeurResiduelle then valeurResiduelle else 0) }
      let info2 : DvfInfo :=
        { source := "dvf_commune", reason := meta.reason, depPrefix := meta.depPrefix,
          count := meta.count, median := meta.median, samples := meta.samples,
          valeur_terrain_estimee := Option.none, used_for_foncier := true,
          human_message := some dvfMsgFallback,
          fallback_mode := some "residuel_from_marge",
          valeur_terrain_residuelle_utilisee := some valeurResiduelle }
      (computeFoncierEtMarge caTotalBrut coutHorsFoncierBrut sdpTotale surfaceTerrain params
        (some fe), some info2, true)
  else
    (computeFoncierEtMarge caTotalBrut coutHorsFoncierBrut sdpTotale surfaceTerrain params
      (some foncierEffective), Option.none, false)

/-! ## Untyped JSON values and `deepMerge` (lines 133-151)

`deepMerge` operates on untyped JS values.  `Jv` models the JSON value
universe; a JS object is modelled by its ordered key-value fields.  A merge
result whose base was an array is represented by its index-keyed fields
(observationally equivalent here: the program never tests `Array.isArray`
on a merge result). -/

inductive Jv where
  | null : Jv
  | bool : Bool → Jv
  | num : ℚ → Jv
  | str : String → Jv
  | arr : List Jv → Jv
  | obj : List (String × Jv) → Jv

/-- The test `x && typeof x === "object" && !Array.isArray(x)`: a truthy
non-array object.  (`null` has typeof "object" but is falsy.) -/
def isPlainObj : Jv → Bool
  | Jv.obj _ => true
  | _ => false

/-- First-match association lookup, as JS property access on our field
lists. -/
def lookupField : List (String × Jv) → String → Option Jv
  | [], _ => Option.none
  | (k1, v) :: rest, k => if k1 = k then some v else lookupField rest k

/-- JS property assignment `o[k] = v` on a field list: replace in place if
the key exists, else append. -/
def setKey : List (String × Jv) → String → Jv → List (String × Jv)
  | [], k, v => [(k, v)]
  | (k1, v1) :: rest, k, v =>
    if k1 = k then (k1, v) :: rest else (k1, v1) :: setKey rest k v

/-- Index-keyed fields of an array (JS `Object.keys` on an array yields its
indices as strings). -/
def indexFields : ℕ → List Jv → List (String × Jv)
  | _, [] => []
  | i, x :: xs => (toString i, x) :: indexFields (i + 1) xs

/-- The enumerable own fields produced by a spread `{...base}` /
`[...base]`: object fields, array index fields, string index characters,
nothing for primitives. -/
def spreadFields : Jv → List (String × Jv)
  | Jv.obj fs => fs
  | Jv.arr xs => indexFields 0 xs
  | Jv.str s => indexFields 0 (s.toList.map (fun c => Jv.str (String.mk [c])))
  | _ => []

/-- JS property read `base[key]`. -/
def jIndex : Jv → String → Option Jv
  | Jv.obj fs, k => lookupField fs k
  | Jv.arr xs, k =>
    match k.toNat? with
    | some i => xs.get? i
    | Option.none => Option.none
  | Jv.str s, k =>
    match k.toNat? with
    | some i => (s.toList.get? i).map (fun c => Jv.str (String.mk [c]))
    | Option.none => Option.none
  | _, _ => Option.none

mutual

/-- Source `deepMerge` (lines 133-151).  A non-object (hence falsy or
non-"object"-typeof) override returns the base; otherwise the base is
copied and every override key is assigned, recursing exactly when both
sides are plain (non-array) objects. -/
def deepMerge (base override : Jv) : Jv :=
  match override with
  | Jv.arr os => Jv.obj (mergeIdx base (spreadFields base) 0 os)
  | Jv.obj os => Jv.obj (mergeFields base (spreadFields base) os)
  | _ => base
termination_by (sizeOf override, 0)

/-- The `for (const key of Object.keys(override))` loop for an object
override. -/
def mergeFields (base : Jv) (acc : List (String × Jv)) :
    List (String × Jv) → List (String × Jv)
  | [] => acc
  | (k, o) :: rest => mergeFields base (setKey acc k (mergeVal (jIndex base k) o)) rest
termination_by l => (sizeOf l, 1)

/-- The same loop for an array override (keys are the indices). -/
def mergeIdx (base : Jv) (acc : List (String × Jv)) (i : ℕ) :
    List Jv → List (String × Jv)
  | [] => acc
  | o :: rest =>
    mergeIdx base (setKey acc (toString i) (mergeVal (jIndex base (toString i)) o)) (i + 1) rest
termination_by l => (sizeOf l, 1)

/-- Per-key merged value (lines 137-148): recurse when both the base value
and the override value are plain objects, else take the override value. -/
def mergeVal : Option Jv → Jv → Jv
  | some b, o => if isPlainObj b && isPlainObj o then deepMerge b o else o
  | Option.none, o => o
termination_by _ o => (sizeOf o, 2)

end

/-! ## Profil promoteur (lines 198-255) -/

/-- Interface `FinancementInput` (lines 65-68); overrides are an untyped
object. -/
structure FinancementInput where
  profile_code : Option String
  overrides : Option Jv

/-- Result shape of `fetchPromoteurProfile`. -/
structure ProfilResolved where
  code : String
  params : Jv
  source : String

/-- The built-in `defaults` object (lines 201-219) as an untyped value. -/
def promoteurDefaults : Jv :=
  Jv.obj
    [("ventes", Jv.obj
        [("logement", Jv.obj [("prix_vente_m2", Jv.num 7000), ("taux_vacance", Jv.num 0)]),
         ("commerce", Jv.obj [("prix_vente_m2", Jv.num 8000), ("taux_vacance", Jv.num 0)])]),
     ("couts", Jv.obj
        [("construction", Jv.obj
            [("logement_m2", Jv.num 2300), ("commerce_m2", Jv.num 2200),
             ("bureaux_m2", Jv.num 2400)]),
         ("honoraires_pct", Jv.num (5 / 100)),
         ("frais_etudes_pct", Jv.num (2 / 100)),
         ("frais_commerciaux_pct", Jv.num (3 / 100)),
         ("frais_financiers_pct", Jv.num (4 / 100)),
         ("taxes_pct", Jv.num (3 / 100))]),
     ("objectif", Jv.obj [("marge_cible_pct_sur_ca", Jv.num (12 / 100))])]

/-- `financement.overrides ? deepMerge(p, financement.overrides) : p`. -/
def applyOverrides (ovr : Option Jv) (params : Jv) : Jv :=
  match ovr with
  | some o => deepMerge params o
  | Option.none => params

/-- Source `fetchPromoteurProfile` (lines 198-255).  `dbRow` models the
`promoteur_profiles` lookup result, `none` covering both a query error and
a missing row; the function always succeeds, defaulting on any miss.  The
falsiness test `!financement?.profile_code` also catches the empty
string. -/
def fetchPromoteurProfile (financement : Option FinancementInput)
    (dbRow : Option (String × Jv)) : ProfilResolved :=
  match financement with
  | Option.none => { code := "DEFAULT", params := promoteurDefaults, source := "default" }
  | some fin =>
    match fin.profile_code with
    | Option.none =>
      { code := "DEFAULT", params := applyOverrides fin.overrides promoteurDefaults,
        source := "default" }
    | some pc =>
      if pc = "" then
        { code := "DEFAULT", params := applyOverrides fin.overrides promoteurDefaults,
          source := "default" }
      else
        match dbRow with
        | Option.none =>
          { code := pc, params := applyOverrides fin.overrides promoteurDefaults,
            source := "default" }
        | some (dcode, dparams) =>
          { code := dcode, params := applyOverrides fin.overrides dparams, source := "db" }

/-! ## Concrete inputs used by the witness and counterexample theorems -/

/-- A minimal project input (scenario defaulted). -/
def projetLogement : ProjetInput :=
  { destination_principale := "logement", scenario := Option.none }

/-- The zoning ruleset of the end-to-end example: footprint ratio 0.6, no
absolute cap, height cap 15 m. -/
def rulesetC6 : PluRuleset :=
  { implantation := Option.none
    emprise_sol := some { max_ratio := some (6 / 10), max_m2 := Option.none }
    hauteur := some { hauteur_max_m := some 15, hauteur_min_m := Option.none } }

/-- The financing parameters of the end-to-end example: residential sale
price 6000 €/m², construction 2500 €/m², honoraria 5 %, target margin
12 %, remaining fee ratios left to their defaults. -/
def paramsC6 : PromoteurParams :=
  { ventes := some
      { logement := some { prix_vente_m2 := some 6000, taux_vacance := some 0 }
        commerce := Option.none
        bureaux := Option.none }
    couts := some
      { construction := some
          { logement_m2 := some 2500, commerce_m2 := Option.none, bureaux_m2 := Option.none }
        honoraires_pct := some (5 / 100)
        frais_etudes_pct := Option.none
        frais_commerciaux_pct := Option.none
        frais_financiers_pct := Option.none
        taxes_pct := Option.none }
    objectif := some { marge_cible_pct_sur_ca := some (12 / 100) } }

/-- A DVF row that passes every query filter and whose ratio 3000/10 = 300
lies inside the sanity band. -/
def dvfRowOk : DvfRawRow :=
  { code_commune := "75101", nature_mutation := "Vente", type_local := Option.none,
    surface_reelle_bati := some 0, valeur_fonciere := some 3000, surface_terrain := some 10 }

/-- Thirty qualifying transactions: exactly the minimum sample size. -/
def tbl30 : List DvfRawRow := List.replicate 30 dvfRowOk

/-- Twenty-nine qualifying transactions mixed with rows that each violate
one filter (a built structure, an oversized terrain, a non-sale mutation, a
missing price) and one whose ratio falls outside the sanity band: exactly
29 ratios survive. -/
def tbl29 : List DvfRawRow :=
  List.replicate 29 dvfRowOk ++
    [{ dvfRowOk with surface_reelle_bati := some 20 },
     { dvfRowOk with surface_terrain := some 6000 },
     { dvfRowOk with nature_mutation := "Donation" },
     { dvfRowOk with valeur_fonciere := Option.none },
     { dvfRowOk with valeur_fonciere := some 100000, surface_terrain := some 1 }]

/-! ## Theorems -/

/-- C6: end-to-end example.  Terrain 500 m², footprint ratio 0.6 (no cap),
height 15 m, floor height 3 m give footprint 300 m², 5 levels, 255 m² per
level (efficiency 0.85) and 1275 m² of floor area; sale price 6000 €/m²
gives revenue 7 650 000 €, construction 2500 €/m² gives 3 187 500 €,
honoraria 5 % give 159 375 €; with target margin 12 % the residual land
value is revenue × 0.88 minus the total cost excluding land
(= 2 556 375 €). -/
theorem C6_end_to_end :
    (computeEtudeArchi 500 (some rulesetC6) projetLogement).emprise_autorisee_m2 = some 300 ∧
    (computeEtudeArchi 500 (some rulesetC6) projetLogement).nb_niveaux_possibles = 5 ∧
    (computeEtudeArchi 500 (some rulesetC6) projetLogement).surface_niveau_typique_m2 =
      some 255 ∧
    (computeEtudeArchi 500 (some rulesetC6) projetLogement).sdp_totale_potentielle_m2 =
      some 1275 ∧
    (computeRevenusEtCoutsHorsFoncier (computeEtudeArchi 500 (some rulesetC6) projetLogement)
      paramsC6).ventes.ca_total = some 7650000 ∧
    (computeRevenusEtCoutsHorsFoncier (computeEtudeArchi 500 (some rulesetC6) projetLogement)
      paramsC6).couts_hors_foncier.construction = some 3187500 ∧
    (computeRevenusEtCoutsHorsFoncier (computeEtudeArchi 500 (some rulesetC6) projetLogement)
      paramsC6).couts_hors_foncier.honoraires = some 159375 ∧
    (computeRevenusEtCoutsHorsFoncier (computeEtudeArchi 500 (some rulesetC6) projetLogement)
      paramsC6).cout_total_hors_foncier_brut = 4175625 ∧
    (computeFoncierEtMarge 7650000 4175625 1275 500 paramsC6 Option.none).valeur_terrain_residuelle
      = some (7650000 * (1 - 12 / 100) - 4175625) ∧
    (computeFoncierEtMarge 7650000 4175625 1275 500 paramsC6
      Option.none).valeur_terrain_residuelle = some 2556375 := by
  norm_num [computeEtudeArchi, computeRevenusEtCoutsHorsFoncier, computeFoncierEtMarge,
    coutFoncierEffectifOf, safeNumber, round, rulesetC6, paramsC6, projetLogement]

/-- C9 counterexample: with every zoning field unknown, the street setback
is reported as 0 — an unknown field silently mapped to zero, refuting the
claim that no unknown field ever maps to zero. -/
theorem C9_counterexample :
    (computeEtudeArchi 500 Option.none projetLogement).retraits.rue_m = some 0 := by
  with_unfolding_all decide

/-- C9 amended: unknown footprint ratio and height behave exactly as the
documented constants 0.6 and 15 m and an unknown absolute cap as "no cap";
the unknown rear and side setbacks map to null, but the unknown street
setback maps to 0. -/
theorem C9_amended (s : ℚ) (p : ProjetInput) :
    computeEtudeArchi s Option.none p = computeEtudeArchi s (some rulesetC6) p ∧
    (computeEtudeArchi s Option.none p).retraits.rue_m = some 0 ∧
    (computeEtudeArchi s Option.none p).retraits.fond_m = Option.none ∧
    (computeEtudeArchi s Option.none p).retraits.lateraux_m = Option.none ∧
    (computeEtudeArchi s Option.none p).hauteur_max_m = 15 :=
  ⟨rfl, rfl, rfl, rfl, rfl⟩

/-- C2 counterexample: with total revenue 0 the aggregated margin ratio in
the bilan is the number 0, not null, refuting the claim that it is null. -/
theorem C2_counterexample :
    (computeFoncierEtMarge 0 0 0 500 defaultPromoteurParams Option.none).marge.taux_sur_ca =
      some 0 := by
  with_unfolding_all decide

/-- C2 amended: with total revenue 0 the margin ratio is the numeric
placeholder 0 (never NaN and never a division error), for every other
input. -/
theorem C2_amended (chf sdp st : ℚ) (params : PromoteurParams) (f : Option FoncierInput) :
    (computeFoncierEtMarge 0 chf sdp st params f).marge.taux_sur_ca = some 0 := by
  simp [computeFoncierEtMarge, round]
  norm_num

/-- C3 counterexample: a request that explicitly supplies the non-positive
terrain area −5 m² is not rejected — the area resolution yields the value
itself, and it is carried unclamped into the envelope computation (footprint
−3 m²), refuting the claim that a non-positive area is surfaced as an error
with no computation attempted. -/
theorem C3_counterexample :
    resolveSurface (some (-5)) Option.none Option.none = some (-5) ∧
    (computeEtudeArchi (-5) Option.none projetLogement).emprise_autorisee_m2 = some (-3) := by
  refine ⟨rfl, ?_⟩
  norm_num [computeEtudeArchi, safeNumber, round]

/-- C3 amended: only an unresolved terrain area (no numeric value supplied
and no positive cadastre candidate) is rejected with the invalid-input
error; a supplied numeric area — including 0 or a negative value — is
carried into the computation as-is, never clamped and never rejected.
Areas resolved from the cadastre are always positive. -/
theorem C3_amended (ps : Option ℚ) (pid : Option String) (row : Option CadastreRow) :
    (∀ v : ℚ, ps = some v → resolveSurface ps pid row = some v) ∧
    (resolveSurface ps pid row = Option.none ↔
      ps = Option.none ∧ fetchSurfaceFromCadastre pid row = Option.none) ∧
    (∀ v : ℚ, ps = Option.none → resolveSurface ps pid row = some v → 0 < v) := by
  refine ⟨?_, ?_, ?_⟩
  · intro v h
    subst h
    rfl
  · cases ps with
    | some v => simp [resolveSurface, safeNumber]
    | none =>
      cases pid with
      | none => simp [resolveSurface, safeNumber, fetchSurfaceFromCadastre]
      | some p =>
        by_cases hp : p = ""
        · subst hp
          simp [resolveSurface, safeNumber, fetchSurfaceFromCadastre]
        · simp [resolveSurface, safeNumber, fetchSurfaceFromCadastre, hp]
  · intro v hps hres
    subst hps
    cases pid with
    | none => simp [resolveSurface, safeNumber] at hres
    | some p =>
      by_cases hp : p = ""
      · subst hp
        simp [resolveSurface, safeNumber] at hres
      · simp only [resolveSurface, safeNumber] at hres
        rw [if_neg hp] at hres
        cases row with
        | none => simp [fetchSurfaceFromCadastre, hp] at hres
        | some d =>
          simp only [fetchSurfaceFromCadastre] at hres
          rw [if_neg hp] at hres
          rcases hfind : List.find? (fun x =>
              match x with
              | some v => decide (0 < v)
              | Option.none => false)
            [safeNumber d.surface_terrain_m2 Option.none, safeNumber d.surface_m2 Option.none,
             safeNumber d.surface Option.none, safeNumber d.superficie Option.none,
             safeNumber d.contenance Option.none,
             safeNumber d.props_contenance Option.none] with _ | w
          · rw [hfind] at hres
            simp [Option.join] at hres
          · rw [hfind] at hres
            have hw := List.find?_some hfind
            cases w with
            | none => simp at hw
            | some x =>
              simp [Option.join] at hres
              subst hres
              exact of_decide_eq_true hw

/-- A cadastre row whose first surface candidate is 7 m². -/
def cadRow7 : CadastreRow :=
  { surface_terrain_m2 := some 7, surface_m2 := Option.none, surface := Option.none,
    superficie := Option.none, contenance := Option.none, props_contenance := Option.none }

/-- Witness for C3 amended at concrete inputs: a supplied area 42 is carried
as-is, and a cadastre-resolved area (7, from `cadRow7`) is positive. -/
theorem C3_amended_w :
    resolveSurface (some 42) Option.none Option.none = some 42 ∧ (0 : ℚ) < 7 :=
  ⟨(C3_amended (some 42) Option.none Option.none).1 42 rfl,
   (C3_amended Option.none (some "p1") (some cadRow7)).2.2 7 rfl (by decide)⟩

/-- C4: with enough samples, the market-comparables value equals the median
of the surviving ratios times the subject terrain area, where the median is
computed over the ascending sort (sorted, and a permutation of the input):
central value for an odd count, mean of the two central values for an even
count.  In particular median [100,200,300] = 200 and
median [100,200,300,400] = 250, also on unsorted input. -/
theorem C4_median_rule (commune : String) (st : ℚ) (tbl : List DvfRawRow) :
    dvfMedian [100, 200, 300] = 200 ∧
    dvfMedian [100, 200, 300, 400] = 250 ∧
    dvfMedian [300, 100, 400, 200] = 250 ∧
    (∀ l : List ℚ,
      (l.insertionSort (· ≤ ·)).Sorted (· ≤ ·) ∧ List.Perm (l.insertionSort (· ≤ ·)) l) ∧
    (30 ≤ (dvfRatios commune tbl).length →
      (estimateFoncierFromDvfByCommune commune st (some tbl)).1 =
        some (dvfMedian (dvfRatios commune tbl) * st)) := by
  refine ⟨?_, ?_, ?_, ?_, ?_⟩
  · with_unfolding_all decide
  · with_unfolding_all decide
  · with_unfolding_all decide
  · intro l
    exact ⟨List.sorted_insertionSort _ l, List.perm_insertionSort _ l⟩
  · intro h
    have hlt : ¬ (dvfRatios commune tbl).length < 30 := not_lt.mpr h
    simp only [estimateFoncierFromDvfByCommune]
    rw [if_neg hlt]

/-- Witness for C4 at a concrete table of exactly 30 qualifying rows. -/
theorem C4_median_rule_w :
    (estimateFoncierFromDvfByCommune "75101" 500 (some tbl30)).1 =
      some (dvfMedian (dvfRatios "75101" tbl30) * 500) :=
  (C4_median_rule "75101" 500 tbl30).2.2.2.2 (by with_unfolding_all decide)

/-- C5: every surviving ratio lies in the sanity band [50, 20000]; every row
the comparables query returns is a pure land sale (nature "Vente", no local
type, zero built surface) with terrain area in (0, 5000] and declared price
> 0; and with fewer than 30 surviving ratios the method resolves no market
value. -/
theorem C5_filters_threshold (commune : String) (st : ℚ) (tbl : List DvfRawRow) :
    (∀ r ∈ dvfRatios commune tbl, 50 ≤ r ∧ r ≤ 20000) ∧
    (∀ row ∈ dvfQueryRows commune tbl,
      row.nature_mutation = "Vente" ∧ row.type_local = Option.none ∧
      row.surface_reelle_bati = some 0 ∧
      (∃ s, row.surface_terrain = some s ∧ 0 < s ∧ s ≤ 5000) ∧
      (∃ v, row.valeur_fonciere = some v ∧ 0 < v)) ∧
    ((dvfRatios commune tbl).length < 30 →
      (estimateFoncierFromDvfByCommune commune st (some tbl)).1 = Option.none) := by
  refine ⟨?_, ?_, ?_⟩
  · intro r hr
    obtain ⟨row, _, hf⟩ := List.mem_filterMap.mp hr
    cases hv : row.valeur_fonciere with
    | none => rw [hv] at hf; simp [safeNumber] at hf
    | some v =>
      cases hs : row.surface_terrain with
      | none => rw [hv, hs] at hf; simp [safeNumber] at hf
      | some s =>
        rw [hv, hs] at hf
        simp only [safeNumber] at hf
        split_ifs at hf with h1 h2
        obtain rfl : v / s = r := by simpa using hf
        exact h2
  · intro row hrow
    have hmem : row ∈ tbl.filter (dvfQueryFilter (depPrefixOf commune)) :=
      List.take_subset _ _ hrow
    have hpred := (List.mem_filter.mp hmem).2
    simp only [dvfQueryFilter, Bool.and_eq_true] at hpred
    obtain ⟨⟨⟨⟨⟨-, h2⟩, h3⟩, h4⟩, h5⟩, h6⟩ := hpred
    refine ⟨by simpa using h2, by simpa using h3, by simpa using h4, ?_, ?_⟩
    · cases hs : row.surface_terrain with
      | none => rw [hs] at h5; simp at h5
      | some s =>
        rw [hs] at h5
        simp only [Bool.and_eq_true, decide_eq_true_eq] at h5
        exact ⟨s, rfl, h5.1, h5.2⟩
    · cases hv : row.valeur_fonciere with
      | none => rw [hv] at h6; simp at h6
      | some v =>
        rw [hv] at h6
        simp only [decide_eq_true_eq] at h6
        exact ⟨v, rfl, h6⟩
  · intro h
    simp only [estimateFoncierFromDvfByCommune]
    rw [if_pos h]

/-- Witness for C5 at a concrete table where exactly 29 ratios survive: no
market value is produced. -/
theorem C5_filters_threshold_w :
    (dvfRatios "75101" tbl29).length = 29 ∧
    (estimateFoncierFromDvfByCommune "75101" 500 (some tbl29)).1 = Option.none :=
  ⟨by with_unfolding_all decide,
   (C5_filters_threshold "75101" 500 tbl29).2.2 (by with_unfolding_all decide)⟩

/-- An unresolved DVF estimate never carries the success reason "ok". -/
lemma estimateFoncier_reason_of_none (commune : String) (st : ℚ)
    (tbl : Option (List DvfRawRow)) (meta : DvfMeta)
    (h : estimateFoncierFromDvfByCommune commune st tbl = (Option.none, meta)) :
    meta.reason ≠ "ok" := by
  cases tbl with
  | none =>
    simp only [estimateFoncierFromDvfByCommune] at h
    injection h with h1 h2
    rw [← h2]
    simp
  | some rows =>
    simp only [estimateFoncierFromDvfByCommune] at h
    by_cases hlen : (dvfRatios commune rows).length < 30
    · rw [if_pos hlen] at h
      injection h with h1 h2
      rw [← h2]
      simp
    · rw [if_neg hlen] at h
      injection h with h1 h2
      exact absurd h1 (by simp)

/-- A resolved DVF estimate always carries the success reason "ok". -/
lemma estimateFoncier_reason_of_some (commune : String) (st : ℚ)
    (tbl : Option (List DvfRawRow)) (v : ℚ) (meta : DvfMeta)
    (h : estimateFoncierFromDvfByCommune commune st tbl = (some v, meta)) :
    meta.reason = "ok" := by
  cases tbl with
  | none =>
    simp only [estimateFoncierFromDvfByCommune] at h
    injection h with h1 h2
    exact absurd h1 (by simp)
  | some rows =>
    simp only [estimateFoncierFromDvfByCommune] at h
    by_cases hlen : (dvfRatios commune rows).length < 30
    · rw [if_pos hlen] at h
      injection h with h1 h2
      exact absurd h1 (by simp)
    · rw [if_neg hlen] at h
      injection h with h1 h2
      rw [← h2]

/-- C1 counterexample: market mode requested with an empty transaction table
(0 surviving samples, below threshold).  The engine falls back, but the
recorded mode in `foncier_detail` is "saisi", not "residuel": the claim
that the recorded mode used must be "residual" is false on the code.  The
fallback itself is recorded in `dvf_info.fallback_mode`. -/
theorem C1_counterexample :
    (resolveFoncier (some { mode := some FoncierMode.dvf, valeur_terrain_saisi := Option.none })
      "75101" 500 (some []) 1000000 800000 100 defaultPromoteurParams).1.foncier_detail.mode =
      FoncierMode.saisi ∧
    (resolveFoncier (some { mode := some FoncierMode.dvf, valeur_terrain_saisi := Option.none })
      "75101" 500 (some []) 1000000 800000 100
      defaultPromoteurParams).1.foncier_detail.mode ≠ FoncierMode.residuel ∧
    (resolveFoncier (some { mode := some FoncierMode.dvf, valeur_terrain_saisi := Option.none })
      "75101" 500 (some []) 1000000 800000 100 defaultPromoteurParams).2.1.map
        (·.fallback_mode) = some (some "residuel_from_marge") := by
  with_unfolding_all decide

/-- C1 amended: when mode "dvf" is requested and the market method does not
resolve, the engine substitutes the residual value as a declared ("saisi")
land value and records the fallback in `dvf_info`: `fallback_mode =
"residuel_from_marge"`, `used_for_foncier` set, and a non-"ok" reason; the
recorded `foncier_detail.mode` becomes "saisi" (not "residuel").  When the
market method truly resolves, `dvf_info` carries reason "ok", no
`fallback_mode`, and the estimated value; the mode is likewise rewritten to
"saisi".  The fallback is thus always distinguishable from a successful
market resolution through `dvf_info`, never through the mode field. -/
theorem C1_amended (vts : Option ℚ) (commune : String) (st ca chf sdp : ℚ)
    (params : PromoteurParams) (tbl : Option (List DvfRawRow)) :
    ((estimateFoncierFromDvfByCommune commune st tbl).1 = Option.none →
      ∃ info,
        (resolveFoncier (some { mode := some FoncierMode.dvf, valeur_terrain_saisi := vts })
          commune st tbl ca chf sdp params).2.1 = some info ∧
        info.fallback_mode = some "residuel_from_marge" ∧
        info.used_for_foncier = true ∧
        info.reason ≠ "ok" ∧
        (resolveFoncier (some { mode := some FoncierMode.dvf, valeur_terrain_saisi := vts })
          commune st tbl ca chf sdp params).1.foncier_detail.mode = FoncierMode.saisi) ∧
    (∀ v : ℚ, (estimateFoncierFromDvfByCommune commune st tbl).1 = some v →
      ∃ info,
        (resolveFoncier (some { mode := some FoncierMode.dvf, valeur_terrain_saisi := vts })
          commune st tbl ca chf sdp params).2.1 = some info ∧
        info.reason = "ok" ∧
        info.fallback_mode = Option.none ∧
        info.valeur_terrain_estimee = some v ∧
        (resolveFoncier (some { mode := some FoncierMode.dvf, valeur_terrain_saisi := vts })
          commune st tbl ca chf sdp params).1.foncier_detail.mode = FoncierMode.saisi) := by
  rcases hE : estimateFoncierFromDvfByCommune commune st tbl with ⟨val, meta⟩
  constructor
  · intro h
    replace h : val = Option.none := h
    subst h
    simp only [resolveFoncier, hE, Option.getD_some]
    refine ⟨_, rfl, rfl, rfl, estimateFoncier_reason_of_none commune st tbl meta hE, rfl⟩
  · intro v hv
    replace hv : val = some v := hv
    subst hv
    simp only [resolveFoncier, hE, Option.getD_some]
    refine ⟨_, rfl, estimateFoncier_reason_of_some commune st tbl v meta hE, rfl, rfl, rfl⟩

/-- Witness for C1 amended: concrete unresolved market query (empty table)
with the fallback recorded in `dvf_info` and the mode recorded as
"saisi". -/
theorem C1_amended_w :
    ∃ info,
      (resolveFoncier (some { mode := some FoncierMode.dvf, valeur_terrain_saisi := Option.none })
        "13001" 400 (some []) 2000000 1500000 900 defaultPromoteurParams).2.1 = some info ∧
      info.fallback_mode = some "residuel_from_marge" ∧
      info.used_for_foncier = true ∧
      info.reason ≠ "ok" ∧
      (resolveFoncier (some { mode := some FoncierMode.dvf, valeur_terrain_saisi := Option.none })
        "13001" 400 (some []) 2000000 1500000 900
        defaultPromoteurParams).1.foncier_detail.mode = FoncierMode.saisi :=
  (C1_amended Option.none "13001" 400 2000000 1500000 900 defaultPromoteurParams
    (some [])).1 (by with_unfolding_all decide)

/-- Lookup after a key assignment: the assigned key reads the new value,
any other key is unaffected. -/
lemma lookupField_setKey (fs : List (String × Jv)) (k : String) (v : Jv) (k2 : String) :
    lookupField (setKey fs k v) k2 = if k = k2 then some v else lookupField fs k2 := by
  induction fs with
  | nil => simp [setKey, lookupField]
  | cons p rest ih =>
    obtain ⟨k1, v1⟩ := p
    simp only [setKey]
    by_cases h1 : k1 = k
    · subst h1
      simp only [if_pos rfl, lookupField]
      by_cases h2 : k1 = k2
      · simp [h2]
      · simp [h2]
    · rw [if_neg h1]
      simp only [lookupField]
      by_cases h2 : k1 = k2
      · have hk : ¬k = k2 := fun he => h1 (h2.trans he.symm)
        simp [h2, hk]
      · simp [h2, ih]

/-- A key absent from the field names reads nothing. -/
lemma lookupField_eq_none (fs : List (String × Jv)) (k : String)
    (h : k ∉ fs.map Prod.fst) : lookupField fs k = Option.none := by
  induction fs with
  | nil => rfl
  | cons p rest ih =>
    obtain ⟨k1, v1⟩ := p
    simp only [List.map_cons, List.mem_cons] at h
    push_neg at h
    rw [lookupField, if_neg (fun he => h.1 he.symm)]
    exact ih h.2

/-- The override loop writes, for each override key, the merged value of
the base value at that key and the override value; keys outside the
override are looked up in the accumulator. -/
lemma mergeFields_lookup (base : Jv) (os : List (String × Jv))
    (hnd : (os.map Prod.fst).Nodup) (acc : List (String × Jv)) (k : String) :
    lookupField (mergeFields base acc os) k =
      match lookupField os k with
      | some o => some (mergeVal (jIndex base k) o)
      | Option.none => lookupField acc k := by
  induction os generalizing acc with
  | nil => simp [mergeFields, lookupField]
  | cons p rest ih =>
    obtain ⟨k1, o1⟩ := p
    have hnd2 : (rest.map Prod.fst).Nodup := (List.nodup_cons.mp (by simpa using hnd)).2
    have hk1 : k1 ∉ rest.map Prod.fst := (List.nodup_cons.mp (by simpa using hnd)).1
    simp only [mergeFields]
    rw [ih hnd2]
    by_cases h : k1 = k
    · subst h
      rw [lookupField_eq_none rest k1 hk1]
      simp [lookupField, lookupField_setKey]
    · rw [lookupField, if_neg h]
      cases hr : lookupField rest k with
      | none => simp [lookupField_setKey, h]
      | some o => simp

/-- Lookup in the deep-merge of two objects: override keys carry the merged
value, other keys fall back to the base. -/
lemma deepMerge_obj_lookup (bs os : List (String × Jv))
    (hnd : (os.map Prod.fst).Nodup) (k : String) :
    jIndex (deepMerge (Jv.obj bs) (Jv.obj os)) k =
      match lookupField os k with
      | some o => some (mergeVal (lookupField bs k) o)
      | Option.none => lookupField bs k := by
  have h1 : deepMerge (Jv.obj bs) (Jv.obj os) = Jv.obj (mergeFields (Jv.obj bs) bs os) := by
    simp [deepMerge, spreadFields]
  rw [h1]
  show lookupField (mergeFields (Jv.obj bs) bs os) k = _
  rw [mergeFields_lookup (Jv.obj bs) os hnd bs k]
  rfl

/-- C7: deep-merge of a caller override onto a financing profile.  When both
sides hold a composite (plain-object) value at a key, the merge recurses;
when the override holds a non-composite leaf (or the base side is not
composite), the override value replaces the base value outright; keys
present only in the base are preserved; and a profile id that fails lookup
resolves to the built-in defaults merged with the override, never a hard
failure. -/
theorem C7_deep_merge (bs os : List (String × Jv)) (k : String)
    (hnd : (os.map Prod.fst).Nodup) (pcode : String) (hcode : pcode ≠ "")
    (ovr : Option Jv) :
    (∀ bf of, lookupField bs k = some (Jv.obj bf) → lookupField os k = some (Jv.obj of) →
      jIndex (deepMerge (Jv.obj bs) (Jv.obj os)) k =
        some (deepMerge (Jv.obj bf) (Jv.obj of))) ∧
    (∀ o, lookupField os k = some o →
      (isPlainObj o = false ∨ isPlainObj ((lookupField bs k).getD Jv.null) = false) →
      jIndex (deepMerge (Jv.obj bs) (Jv.obj os)) k = some o) ∧
    (lookupField os k = Option.none →
      jIndex (deepMerge (Jv.obj bs) (Jv.obj os)) k = lookupField bs k) ∧
    (fetchPromoteurProfile (some { profile_code := some pcode, overrides := ovr }) Option.none =
      { code := pcode, params := applyOverrides ovr promoteurDefaults, source := "default" }) := by
  refine ⟨?_, ?_, ?_, ?_⟩
  · intro bf of hb ho
    rw [deepMerge_obj_lookup bs os hnd k]
    rw [ho, hb]
    simp [mergeVal, isPlainObj]
  · intro o ho hcond
    rw [deepMerge_obj_lookup bs os hnd k]
    rw [ho]
    rcases hcond with h | h
    · cases hbk : lookupField bs k with
      | none => simp [mergeVal]
      | some b => simp [mergeVal, h]
    · cases hbk : lookupField bs k with
      | none => simp [mergeVal]
      | some b =>
        rw [hbk] at h
        simp only [Option.getD_some] at h
        simp [mergeVal, h]
  · intro ho
    rw [deepMerge_obj_lookup bs os hnd k]
    rw [ho]
  · simp [fetchPromoteurProfile, hcode]

/-- Example base fields: a leaf "a" and a composite section "s". -/
def exBaseFields : List (String × Jv) :=
  [("a", Jv.num 1), ("s", Jv.obj [("x", Jv.num 1), ("y", Jv.num 2)])]

/-- Example override fields: the section "s" (conflicting leaf "y") and a
new leaf "b". -/
def exOverrideFields : List (String × Jv) :=
  [("s", Jv.obj [("y", Jv.num 9)]), ("b", Jv.num 7)]

/-- Witness for C7 at concrete objects: the composite section merges
recursively, the override-only leaf is written, the base-only leaf is
preserved, and a failed profile lookup yields merged defaults. -/
theorem C7_deep_merge_w :
    jIndex (deepMerge (Jv.obj exBaseFields) (Jv.obj exOverrideFields)) "s" =
      some (deepMerge (Jv.obj [("x", Jv.num 1), ("y", Jv.num 2)])
        (Jv.obj [("y", Jv.num 9)])) ∧
    jIndex (deepMerge (Jv.obj exBaseFields) (Jv.obj exOverrideFields)) "b" =
      some (Jv.num 7) ∧
    jIndex (deepMerge (Jv.obj exBaseFields) (Jv.obj exOverrideFields)) "a" =
      lookupField exBaseFields "a" ∧
    fetchPromoteurProfile (some { profile_code := some "XYZ", overrides := Option.none })
      Option.none =
      { code := "XYZ", params := applyOverrides Option.none promoteurDefaults,
        source := "default" } :=
  ⟨(C7_deep_merge exBaseFields exOverrideFields "s" (by decide) "XYZ" (by decide)
      Option.none).1 [("x", Jv.num 1), ("y", Jv.num 2)] [("y", Jv.num 9)] rfl rfl,
   (C7_deep_merge exBaseFields exOverrideFields "b" (by decide) "XYZ" (by decide)
      Option.none).2.1 (Jv.num 7) rfl (Or.inl rfl),
   (C7_deep_merge exBaseFields exOverrideFields "a" (by decide) "XYZ" (by decide)
      Option.none).2.2.1 rfl,
   (C7_deep_merge exBaseFields exOverrideFields "a" (by decide) "XYZ" (by decide)
      Option.none).2.2.2⟩

/-- C8: in declared ("saisi") mode with a positive declared value, the value
is used as-is in the cost stack (land cost, effective total cost and margin
amount, up to the integer output rounding), the comparables query is never
issued, no `dvf_info` is produced, and the result is independent of the
transaction source; in mode "none" the land cost is 0 and the query is
likewise never issued. -/
theorem C8_declared_none (commune : String) (st ca chf sdp : ℚ) (params : PromoteurParams)
    (v : ℚ) (hv : 0 < v) (tbl tbl2 : Option (List DvfRawRow)) (vt : Option ℚ) :
    ((resolveFoncier (some { mode := some FoncierMode.saisi, valeur_terrain_saisi := some v })
        commune st tbl ca chf sdp params).2.2 = false ∧
      (resolveFoncier (some { mode := some FoncierMode.saisi, valeur_terrain_saisi := some v })
        commune st tbl ca chf sdp params).2.1 = Option.none ∧
      (resolveFoncier (some { mode := some FoncierMode.saisi, valeur_terrain_saisi := some v })
        commune st tbl ca chf sdp params).1.cout_foncier_effectif = round (some v) 0 ∧
      (resolveFoncier (some { mode := some FoncierMode.saisi, valeur_terrain_saisi := some v })
        commune st tbl ca chf sdp params).1.cout_total_effectif = round (some (chf + v)) 0 ∧
      (resolveFoncier (some { mode := some FoncierMode.saisi, valeur_terrain_saisi := some v })
        commune st tbl ca chf sdp params).1.marge.montant = round (some (ca - (chf + v))) 0 ∧
      resolveFoncier (some { mode := some FoncierMode.saisi, valeur_terrain_saisi := some v })
        commune st tbl ca chf sdp params =
        resolveFoncier (some { mode := some FoncierMode.saisi, valeur_terrain_saisi := some v })
          commune st tbl2 ca chf sdp params) ∧
    ((resolveFoncier (some { mode := some FoncierMode.none, valeur_terrain_saisi := vt })
        commune st tbl ca chf sdp params).1.cout_foncier_effectif = some 0 ∧
      (resolveFoncier (some { mode := some FoncierMode.none, valeur_terrain_saisi := vt })
        commune st tbl ca chf sdp params).2.2 = false) := by
  have hcfe : coutFoncierEffectifOf
      (some { mode := some FoncierMode.saisi, valeur_terrain_saisi := some v }) = v := by
    simp [coutFoncierEffectifOf, safeNumber, hv]
  have hcfe0 : coutFoncierEffectifOf
      (some { mode := some FoncierMode.none, valeur_terrain_saisi := vt }) = 0 := by
    cases vt <;> simp [coutFoncierEffectifOf, safeNumber]
  refine ⟨⟨rfl, rfl, ?_, ?_, ?_, rfl⟩, ?_, rfl⟩
  · show round (some (coutFoncierEffectifOf
        (some { mode := some FoncierMode.saisi, valeur_terrain_saisi := some v }))) 0 = _
    rw [hcfe]
  · show round (some (chf + coutFoncierEffectifOf
        (some { mode := some FoncierMode.saisi, valeur_terrain_saisi := some v }))) 0 = _
    rw [hcfe]
  · show round (some (ca - (chf + coutFoncierEffectifOf
        (some { mode := some FoncierMode.saisi, valeur_terrain_saisi := some v })))) 0 = _
    rw [hcfe]
  · show round (some (coutFoncierEffectifOf
        (some { mode := some FoncierMode.none, valeur_terrain_saisi := vt }))) 0 = some 0
    rw [hcfe0]
    norm_num [round]

/-- Witness for C8 at concrete inputs: declared value 1000, no query issued,
and the outcome identical for two different transaction sources. -/
theorem C8_declared_none_w :
    (resolveFoncier (some { mode := some FoncierMode.saisi, valeur_terrain_saisi := some 1000 })
      "75101" 500 (some []) 100 40 10 defaultPromoteurParams).2.2 = false ∧
    resolveFoncier (some { mode := some FoncierMode.saisi, valeur_terrain_saisi := some 1000 })
      "75101" 500 (some []) 100 40 10 defaultPromoteurParams =
      resolveFoncier (some { mode := some FoncierMode.saisi, valeur_terrain_saisi := some 1000 })
        "75101" 500 Option.none 100 40 10 defaultPromoteurParams :=
  ⟨(C8_declared_none "75101" 500 100 40 10 defaultPromoteurParams 1000 (by decide) (some [])
      Option.none Option.none).1.1,
   (C8_declared_none "75101" 500 100 40 10 defaultPromoteurParams 1000 (by decide) (some [])
      Option.none Option.none).1.2.2.2.2.2⟩

/-- C10: the effective land cost is non-negative for every input; in
declared mode a missing or non-positive declared value yields land cost 0;
and the dvf fallback substitutes the residual value clamped at 0 as the
declared land value. -/
theorem C10_land_cost_nonneg (ca chf sdp st : ℚ) (params : PromoteurParams)
    (f : Option FoncierInput) (fi2 : FoncierInput) (commune : String)
    (tbl : Option (List DvfRawRow)) :
    (∃ c, (computeFoncierEtMarge ca chf sdp st params f).cout_foncier_effectif = some c ∧
      0 ≤ c) ∧
    (∀ fi, f = some fi → fi.mode = some FoncierMode.saisi →
      (fi.valeur_terrain_saisi = Option.none ∨
        ∃ v, fi.valeur_terrain_saisi = some v ∧ v ≤ 0) →
      (computeFoncierEtMarge ca chf sdp st params f).cout_foncier_effectif = some 0) ∧
    (fi2.mode = some FoncierMode.dvf →
      (estimateFoncierFromDvfByCommune commune st tbl).1 = Option.none →
      (resolveFoncier (some fi2) commune st tbl ca chf sdp
          params).1.foncier_detail.valeur_terrain_saisi =
        round (some (max ((computeFoncierEtMarge ca chf sdp st params
          (some fi2)).valeur_terrain_residuelle.getD 0) 0)) 0) := by
  have hnn : 0 ≤ coutFoncierEffectifOf f := by
    unfold coutFoncierEffectifOf
    generalize (f.bind (·.mode)).getD FoncierMode.none = m
    generalize safeNumber (f.bind (·.valeur_terrain_saisi)) Option.none = w
    cases m <;> cases w <;> simp <;> split_ifs with h <;> simp [le_of_lt, h]
  refine ⟨?_, ?_, ?_⟩
  · refine ⟨_, rfl, ?_⟩
    have hx : (0 : ℚ) ≤ coutFoncierEffectifOf f * (10 : ℚ) ^ (0 : ℕ) + 1 / 2 := by
      have := mul_nonneg hnn (by positivity : (0 : ℚ) ≤ (10 : ℚ) ^ (0 : ℕ))
      linarith
    have hfl : (0 : ℤ) ≤ ⌊coutFoncierEffectifOf f * (10 : ℚ) ^ (0 : ℕ) + 1 / 2⌋ :=
      Int.floor_nonneg.mpr hx
    have : (0 : ℚ) ≤ ((⌊coutFoncierEffectifOf f * (10 : ℚ) ^ (0 : ℕ) + 1 / 2⌋ : ℤ) : ℚ) := by
      exact_mod_cast hfl
    positivity
  · intro fi hf hm hval
    subst hf
    have hz : coutFoncierEffectifOf (some fi) = 0 := by
      rcases hval with hnone | ⟨v, hvs, hvle⟩
      · simp [coutFoncierEffectifOf, hm, hnone, safeNumber]
      · simp [coutFoncierEffectifOf, hm, hvs, safeNumber, not_lt.mpr hvle]
    show round (some (coutFoncierEffectifOf (some fi))) 0 = some 0
    rw [hz]
    norm_num [round]
  · intro hm hnone
    rcases hE : estimateFoncierFromDvfByCommune commune st tbl with ⟨val, meta⟩
    rw [hE] at hnone
    replace hnone : val = Option.none := hnone
    subst hnone
    simp only [resolveFoncier, Option.getD_some, hm, if_pos]
    rw [hE]
    have hiff : (if 0 < (computeFoncierEtMarge ca chf sdp st params
        (some fi2)).valeur_terrain_residuelle.getD 0 then
          (computeFoncierEtMarge ca chf sdp st params
            (some fi2)).valeur_terrain_residuelle.getD 0 else 0) =
        max ((computeFoncierEtMarge ca chf sdp st params
          (some fi2)).valeur_terrain_residuelle.getD 0) 0 := by
      rcases le_or_lt ((computeFoncierEtMarge ca chf sdp st params
          (some fi2)).valeur_terrain_residuelle.getD 0) 0 with h | h
      · rw [if_neg (not_lt.mpr h)]
        exact (max_eq_right h).symm
      · rw [if_pos h]
        exact (max_eq_left (le_of_lt h)).symm
    show round (safeNumber (some (if 0 < (computeFoncierEtMarge ca chf sdp st params
        (some fi2)).valeur_terrain_residuelle.getD 0 then
          (computeFoncierEtMarge ca chf sdp st params
            (some fi2)).valeur_terrain_residuelle.getD 0 else 0)) Option.none) 0 = _
    rw [safeNumber, hiff]

/-- Declared-mode foncier input with the negative value −7. -/
def fonSaisiNeg7 : FoncierInput :=
  { mode := some FoncierMode.saisi, valeur_terrain_saisi := some (-7) }

/-- Market-mode foncier input with no declared value. -/
def fonDvf : FoncierInput :=
  { mode := some FoncierMode.dvf, valeur_terrain_saisi := Option.none }

/-- Witness for C10 at concrete inputs: a declared value of −7 yields land
cost 0 (and a non-negative cost exists), and the dvf fallback on an empty
table records the clamped residual as the declared value. -/
theorem C10_land_cost_nonneg_w :
    (∃ c, (computeFoncierEtMarge 100 40 10 500 defaultPromoteurParams
      (some fonSaisiNeg7)).cout_foncier_effectif = some c ∧ 0 ≤ c) ∧
    (computeFoncierEtMarge 100 40 10 500 defaultPromoteurParams
      (some fonSaisiNeg7)).cout_foncier_effectif = some 0 ∧
    (resolveFoncier (some fonDvf) "75101" 500 (some []) 100 40 10
      defaultPromoteurParams).1.foncier_detail.valeur_terrain_saisi =
      round (some (max ((computeFoncierEtMarge 100 40 10 500 defaultPromoteurParams
        (some fonDvf)).valeur_terrain_residuelle.getD 0) 0)) 0 :=
  ⟨(C10_land_cost_nonneg 100 40 10 500 defaultPromoteurParams (some fonSaisiNeg7) fonDvf
      "75101" (some [])).1,
   (C10_land_cost_nonneg 100 40 10 500 defaultPromoteurParams (some fonSaisiNeg7) fonDvf
      "75101" (some [])).2.1 fonSaisiNeg7 rfl rfl (Or.inr ⟨-7, rfl, by norm_num⟩),
   (C10_land_cost_nonneg 100 40 10 500 defaultPromoteurParams (some fonSaisiNeg7) fonDvf
      "75101" (some [])).2.2 rfl (by with_unfolding_all decide)⟩

end Mimmoza
